import Mathlib

/-!
Verification development for the multi-factor anime recommendation engine
(`src/ai/recommendation/engine.py` and its data model in
`src/ai/models/anime.py`, `src/ai/preferences/user_preferences.py`,
`src/ai/preferences/color_preferences.py`).

Python floats are modelled as exact rationals; the cosine-similarity value,
which takes square roots, is modelled over the reals.  Python dictionaries
are modelled as association lists with first-match lookup (dict keys are
unique, insertion replaces in place).  A Python function that can raise is
modelled with `Option` or `Except`: a `none` result of `score_anime` stands
for an uncaught `ZeroDivisionError`.  External collaborators (the YouTube
search call and the thumbnail colour analysis) are passed as function
parameters; an `Except.error` result of the search parameter stands for an
exception raised by the underlying network call.
-/

namespace AniSage

open List

/-- Lookup in an association list, first match wins, mirroring Python
dict access with string keys. -/
def lookupKV {β : Type} : List (String × β) → String → Option β
  | [], _ => none
  | (k, v) :: rest, key => if k = key then some v else lookupKV rest key

/-- Python `d.get(key, default)`. -/
def lookupD {β : Type} (m : List (String × β)) (key : String) (d : β) : β :=
  (lookupKV m key).getD d

/-- Python `d[key] = value`: replace the value in place when the key is
present, else append the pair, preserving insertion order. -/
def insertKV {β : Type} : List (String × β) → String → β → List (String × β)
  | [], k, v => [(k, v)]
  | (k0, v0) :: rest, k, v =>
    if k0 = k then (k, v) :: rest else (k0, v0) :: insertKV rest k v

/-- Visual profile of an anime, from `color_preferences.py`
(`AnimeVisualProfile`).  The `ColorPalette` and `VisualStyle` enum keys are
modelled by their string values. -/
structure AnimeVisualProfile where
  color_palettes : List (String × ℚ)
  visual_styles : List (String × ℚ)
  dominant_colors : List (ℤ × ℤ × ℤ)
  brightness : ℚ
  saturation : ℚ
  contrast : ℚ
deriving DecidableEq

/-- Extracted per-item features, from `anime.py` (`AnimeFeatures`).  The
unused embedding fields are omitted. -/
structure AnimeFeatures where
  genres : List (String × ℚ)
  themes : List (String × ℚ)
  sentiment : List (String × ℚ)
  emotion_profile : List (String × ℚ)
  target_demographic : List (String × ℚ)
deriving DecidableEq

/-- Catalog item, from `anime.py` (`Anime`); only the fields read or
written by the recommendation engine are modelled. -/
structure Anime where
  id : String
  title : String
  genres : List String
  themes : List String
  studios : List String
  features : AnimeFeatures
  visual_profile : Option AnimeVisualProfile
deriving DecidableEq

/-- Mood enumeration from `user_preferences.py` (`Mood`). -/
inductive Mood where
  | happy
  | sad
  | relaxed
  | excited
  | thoughtful
  | adventurous
  | romantic
  | mysterious
  | any
deriving DecidableEq

/-- A user rating, from `user_preferences.py` (`AnimeRating`); `score`
is the `RatingScale` value 1..5. -/
structure AnimeRating where
  score : ℕ
deriving DecidableEq

/-- A dynamically injected colour preference entry: the Python object has
either a `palette` or a `style` attribute, plus a `weight`. -/
inductive ColorPreferenceEntry where
  | palette (tag : String) (weight : ℚ)
  | style (tag : String) (weight : ℚ)
deriving DecidableEq

/-- User taste profile, from `user_preferences.py` (`UserPreferences`).
The `color_preferences` field models the dynamically injected attribute of
the same name read by `score_anime`; an absent or empty attribute is the
empty list (both are falsy in the Python condition). -/
structure UserPreferences where
  user_id : String
  anime_ratings : List (String × AnimeRating)
  genre_preferences : List (String × ℚ)
  theme_preferences : List (String × ℚ)
  current_mood : Mood
  favorite_studios : List String
  color_preferences : List ColorPreferenceEntry
deriving DecidableEq

/-- Options for a recommendation call, from `engine.py`
(`RecommendationOptions`).  The `generate_explanations`, `include_trailers`
and `demo_mode` flags do not influence the scores and are modelled where
needed (the engine reads its own constructor flag for demo mode). -/
structure RecommendationOptions where
  limit : ℕ
  include_watched : Bool
  mood_weight : ℚ
  genre_weight : ℚ
  studio_weight : ℚ
  sentiment_weight : ℚ
  color_weight : ℚ
deriving DecidableEq

/-- Emotion tags targeted by each mood, from the `mood_mappings` table in
`RecommendationEngine._calculate_mood_relevance`; `ANY` is absent from the
table, hence the empty default. -/
def mood_emotions : Mood → List String
  | Mood.happy => ["joy", "excitement", "comfort"]
  | Mood.sad => ["sadness", "melancholy"]
  | Mood.relaxed => ["comfort", "trust"]
  | Mood.excited => ["excitement", "anticipation"]
  | Mood.thoughtful => ["melancholy", "trust"]
  | Mood.adventurous => ["excitement", "anticipation", "surprise"]
  | Mood.romantic => ["joy", "anticipation", "trust"]
  | Mood.mysterious => ["surprise", "anticipation", "tension"]
  | Mood.any => []

/-- Theme tags targeted by each mood, from the same `mood_mappings` table. -/
def mood_themes : Mood → List String
  | Mood.happy => ["comedy", "slice_of_life"]
  | Mood.sad => ["drama"]
  | Mood.relaxed => ["slice_of_life", "iyashikei"]
  | Mood.excited => ["action", "adventure", "sports"]
  | Mood.thoughtful => ["psychological", "philosophical"]
  | Mood.adventurous => ["adventure", "fantasy", "science_fiction"]
  | Mood.romantic => ["romance"]
  | Mood.mysterious => ["mystery", "supernatural", "horror"]
  | Mood.any => []

/-- `RecommendationEngine._calculate_mood_relevance`: 1.0 for mood ANY,
else 0.6 times the mean targeted emotion value plus 0.4 times the mean
targeted theme value, absent tags contributing 0.0. -/
def calculate_mood_relevance (anime : Anime) (mood : Mood) : ℚ :=
  if mood = Mood.any then 1
  else
    let emotion_scores :=
      (mood_emotions mood).map (fun e => lookupD anime.features.emotion_profile e 0)
    let theme_scores :=
      (mood_themes mood).map (fun t => lookupD anime.features.themes t 0)
    let emotion_score :=
      if emotion_scores = [] then 0 else emotion_scores.sum / (emotion_scores.length : ℚ)
    let theme_score :=
      if theme_scores = [] then 0 else theme_scores.sum / (theme_scores.length : ℚ)
    0.6 * emotion_score + 0.4 * theme_score

/-- Genre signal of `RecommendationEngine.score_anime` (lines 531-535):
sum of the profile weights of the item genres, divided by
`max(1, len(genres))` and floored at 0. -/
def genre_score (user_prefs : UserPreferences) (anime : Anime) : ℚ :=
  max 0 ((anime.genres.map (fun g => lookupD user_prefs.genre_preferences g 0)).sum /
    ((max 1 anime.genres.length : ℕ) : ℚ))

/-- Studio signal of `RecommendationEngine.score_anime` (lines 537-542):
1.0 when any item studio is a favourite studio, else 0.0. -/
def studio_score (user_prefs : UserPreferences) (anime : Anime) : ℚ :=
  if anime.studios.any (fun s => user_prefs.favorite_studios.contains s) then 1 else 0

/-- Sentiment signal of `RecommendationEngine.score_anime` (lines 547-563):
only when the candidate has a sentiment dict, sum the positivity of the
catalog items rated at least 4 that have a sentiment dict, divide by the
number of ALL ratings when the ratings dict is nonempty, and compare with
the candidate positivity.  Note the division is by the total rating count
and happens whether or not any rating qualifies. -/
def sentiment_score (catalog : List (String × Anime)) (user_prefs : UserPreferences)
    (anime : Anime) : ℚ :=
  if anime.features.sentiment = [] then 0
  else
    let user_positivity := (user_prefs.anime_ratings.map (fun p =>
      if 4 ≤ p.2.score then
        match lookupKV catalog p.1 with
        | some rated =>
          if rated.features.sentiment = [] then 0
          else lookupD rated.features.sentiment "positivity" 0
        | none => 0
      else 0)).sum
    if user_prefs.anime_ratings = [] then 0
    else
      1 - |user_positivity / (user_prefs.anime_ratings.length : ℚ) -
        lookupD anime.features.sentiment "positivity" 0|

/-- Deterministic title hash of
`RecommendationEngine._fetch_visual_profile_sync`:
`sum(ord(c) for c in title) % 100`. -/
def title_hash (title : String) : ℕ := (title.data.map Char.toNat).sum % 100

/-- Demo-mode synthesized visual profile from
`RecommendationEngine._fetch_visual_profile_sync` (lines 622-669), keyed by
the title hash bucket. -/
def mock_visual_profile (title : String) : AnimeVisualProfile :=
  let h := title_hash title
  if h < 20 then
    { color_palettes := [("warm", 0.8), ("vibrant", 0.6), ("earthy", 0.5)],
      visual_styles := [("retro", 0.7), ("detailed", 0.4)],
      dominant_colors := [(230, 120, 80), (210, 150, 100), (180, 120, 60),
        (200, 180, 120), (240, 200, 150)],
      brightness := 0.7, saturation := 0.6, contrast := 0.5 }
  else if h < 40 then
    { color_palettes := [("cool", 0.8), ("muted", 0.5), ("monochrome", 0.3)],
      visual_styles := [("modern", 0.8), ("minimalist", 0.5)],
      dominant_colors := [(60, 100, 190), (80, 140, 210), (100, 160, 200),
        (180, 200, 220), (40, 80, 160)],
      brightness := 0.5, saturation := 0.7, contrast := 0.6 }
  else if h < 60 then
    { color_palettes := [("vibrant", 0.9), ("neon", 0.6), ("high_contrast", 0.7)],
      visual_styles := [("stylized", 0.9), ("experimental", 0.6)],
      dominant_colors := [(240, 80, 100), (60, 200, 120), (240, 200, 40),
        (100, 80, 220), (220, 100, 220)],
      brightness := 0.8, saturation := 0.9, contrast := 0.8 }
  else if h < 80 then
    { color_palettes := [("dark", 0.9), ("monochrome", 0.5), ("muted", 0.4)],
      visual_styles := [("realistic", 0.7), ("detailed", 0.6)],
      dominant_colors := [(40, 30, 50), (80, 60, 90), (30, 40, 60),
        (60, 40, 30), (20, 20, 30)],
      brightness := 0.2, saturation := 0.4, contrast := 0.6 }
  else
    { color_palettes := [("pastel", 0.9), ("vibrant", 0.3), ("cool", 0.5)],
      visual_styles := [("chibi", 0.7), ("watercolor", 0.6)],
      dominant_colors := [(220, 230, 250), (250, 220, 230), (230, 250, 220),
        (240, 240, 220), (220, 240, 240)],
      brightness := 0.9, saturation := 0.3, contrast := 0.2 }

/-- `RecommendationEngine._fetch_visual_profile_sync`: in demo mode return
the deterministic mock profile; otherwise run the asynchronous colour
analysis of the thumbnail, modelled by the `fetch_profile` parameter whose
`none` also covers a caught exception. -/
def fetch_visual_profile_sync (demo_mode : Bool)
    (fetch_profile : Anime → Option AnimeVisualProfile) (anime : Anime) :
    Option AnimeVisualProfile :=
  if demo_mode then some (mock_visual_profile anime.title) else fetch_profile anime

/-- `ColorPreferenceProcessor.calculate_preference_match`: weighted average
of palette and style match values using the absolute preference weights,
negative preferences matching the complement of the presence value; 0.6/0.4
blend when both groups are weighted, the single group value when one is,
0.5 when neither is. -/
def calculate_preference_match (profile : AnimeVisualProfile)
    (color_preferences style_preferences : List (String × ℚ)) : ℚ :=
  let palette_weight_sum := (color_preferences.map (fun p => |p.2|)).sum
  let palette_total := (color_preferences.map (fun p =>
    |p.2| * (if p.2 < 0 then 1 - lookupD profile.color_palettes p.1 0
      else lookupD profile.color_palettes p.1 0))).sum
  let palette_match :=
    if 0 < palette_weight_sum then palette_total / palette_weight_sum else palette_total
  let style_weight_sum := (style_preferences.map (fun p => |p.2|)).sum
  let style_total := (style_preferences.map (fun p =>
    |p.2| * (if p.2 < 0 then 1 - lookupD profile.visual_styles p.1 0
      else lookupD profile.visual_styles p.1 0))).sum
  let style_match :=
    if 0 < style_weight_sum then style_total / style_weight_sum else style_total
  if 0 < palette_weight_sum ∧ 0 < style_weight_sum then
    0.6 * palette_match + 0.4 * style_match
  else if 0 < palette_weight_sum then palette_match
  else if 0 < style_weight_sum then style_match
  else 0.5

/-- The palette dict built by `score_anime` (lines 578-585) from the
colour preference entries carrying a `palette` attribute. -/
def build_color_palettes (prefs : List ColorPreferenceEntry) : List (String × ℚ) :=
  prefs.foldl (fun acc p =>
    match p with
    | ColorPreferenceEntry.palette tag w => insertKV acc tag w
    | ColorPreferenceEntry.style _ _ => acc) []

/-- The style dict built by `score_anime` (lines 578-585) from the colour
preference entries carrying a `style` attribute. -/
def build_style_preferences (prefs : List ColorPreferenceEntry) : List (String × ℚ) :=
  prefs.foldl (fun acc p =>
    match p with
    | ColorPreferenceEntry.palette _ _ => acc
    | ColorPreferenceEntry.style tag w => insertKV acc tag w) []

/-- Colour signal of `RecommendationEngine.score_anime` (lines 565-592),
together with its side effect: when the profile carries colour preferences
and the item has no visual profile yet, a visual profile is fetched (or
synthesized in demo mode) and written into the item. -/
def color_score_and_update (demo_mode : Bool)
    (fetch_profile : Anime → Option AnimeVisualProfile) (anime : Anime)
    (user_prefs : UserPreferences) : ℚ × Anime :=
  if user_prefs.color_preferences = [] then (0, anime)
  else
    let anime1 :=
      if anime.visual_profile = none then
        { anime with visual_profile := fetch_visual_profile_sync demo_mode fetch_profile anime }
      else anime
    match anime1.visual_profile with
    | none => (0, anime1)
    | some vp =>
      let color_palettes := build_color_palettes user_prefs.color_preferences
      let style_preferences := build_style_preferences user_prefs.color_preferences
      if color_palettes = [] ∧ style_preferences = [] then (0, anime1)
      else (calculate_preference_match vp color_palettes style_preferences, anime1)

/-- `RecommendationEngine.score_anime` (lines 520-610): the five weighted
signals divided by the weight sum.  The first component is `none` when the
weight sum is zero, standing for the uncaught `ZeroDivisionError` of the
Python float division; the second component is the item as left by the
colour block (the write happens before the division). -/
def score_anime (demo_mode : Bool)
    (fetch_profile : Anime → Option AnimeVisualProfile)
    (catalog : List (String × Anime)) (anime : Anime)
    (user_prefs : UserPreferences) (options : RecommendationOptions) :
    Option ℚ × Anime :=
  let gs := genre_score user_prefs anime
  let ss := studio_score user_prefs anime
  let ms := calculate_mood_relevance anime user_prefs.current_mood
  let sens := sentiment_score catalog user_prefs anime
  let cp := color_score_and_update demo_mode fetch_profile anime user_prefs
  let weight_sum := options.genre_weight + options.studio_weight + options.mood_weight +
    options.sentiment_weight + options.color_weight
  if weight_sum = 0 then (none, cp.2)
  else
    (some ((options.genre_weight * gs + options.studio_weight * ss +
      options.mood_weight * ms + options.sentiment_weight * sens +
      options.color_weight * cp.1) / weight_sum), cp.2)

/-- A scored entry of the result list of `get_recommendations`
(`RecommendationResult`); the trailer enrichment fields do not influence
scores or ordering and are modelled separately by `fetch_trailer_sync`. -/
structure RecommendationResult where
  anime : Anime
  score : ℚ
deriving DecidableEq

/-- Descending score order used by the final
`results.sort(key=lambda r: r.score, reverse=True)`. -/
def scoreGE (a b : RecommendationResult) : Prop := b.score ≤ a.score

instance : DecidableRel scoreGE :=
  fun a b => inferInstanceAs (Decidable (b.score ≤ a.score))

instance : IsTotal RecommendationResult scoreGE :=
  ⟨fun a b => le_total b.score a.score⟩

instance : IsTrans RecommendationResult scoreGE :=
  ⟨fun _ _ _ h1 h2 => le_trans h2 h1⟩

/-- The watched-id set of `get_recommendations` (line 700): the rated item
ids, or empty when `include_watched` is set. -/
def watched_ids (user_prefs : UserPreferences) (options : RecommendationOptions) :
    List String :=
  if options.include_watched then [] else user_prefs.anime_ratings.map Prod.fst

/-- The scoring loop of `get_recommendations` (lines 703-733): iterate the
catalog in insertion order, skip watched ids, score each item.  `none`
stands for a `ZeroDivisionError` escaping from `score_anime`. -/
def score_loop (demo_mode : Bool)
    (fetch_profile : Anime → Option AnimeVisualProfile)
    (catalog : List (String × Anime)) (user_prefs : UserPreferences)
    (options : RecommendationOptions) (watched : List String) :
    List (String × Anime) → Option (List RecommendationResult)
  | [] => some []
  | (k, a) :: rest =>
    if k ∈ watched then
      score_loop demo_mode fetch_profile catalog user_prefs options watched rest
    else
      match score_anime demo_mode fetch_profile catalog a user_prefs options with
      | (none, _) => none
      | (some s, a1) =>
        (score_loop demo_mode fetch_profile catalog user_prefs options watched rest).map
          (fun tail => ⟨a1, s⟩ :: tail)

/-- `RecommendationEngine.get_recommendations` (lines 682-737): score the
non-watched catalog items, sort by score descending with a stable sort
(Python list.sort is stable and `reverse=True` keeps equal elements in
their original order), truncate to `limit`. -/
def get_recommendations (demo_mode : Bool)
    (fetch_profile : Anime → Option AnimeVisualProfile)
    (catalog : List (String × Anime)) (user_prefs : UserPreferences)
    (options : RecommendationOptions) : Option (List RecommendationResult) :=
  (score_loop demo_mode fetch_profile catalog user_prefs options
      (watched_ids user_prefs options) catalog).map
    (fun results => (results.insertionSort scoreGE).take options.limit)

/-- Ascending key sort used by `Anime.get_feature_vector` (Python
`sorted` over the dict keys, modelled by a stable insertion sort over the
string order). -/
def sorted_keys {β : Type} (m : List (String × β)) : List String :=
  (m.map Prod.fst).insertionSort (fun a b => a ≤ b)

/-- One sub-vector of `Anime.get_feature_vector`: the values of a feature
dict listed in sorted key order. -/
def sub_vector (m : List (String × ℚ)) : List ℚ :=
  (sorted_keys m).map (fun k => lookupD m k 0)

/-- `Anime.get_feature_vector` (`anime.py` lines 124-156): concatenation of
the genre, theme, sentiment, emotion and demographic sub-vectors, each in
sorted key order. -/
def get_feature_vector (anime : Anime) : List ℚ :=
  sub_vector anime.features.genres ++ sub_vector anime.features.themes ++
    sub_vector anime.features.sentiment ++ sub_vector anime.features.emotion_profile ++
    sub_vector anime.features.target_demographic

/-- The cosine similarity computed by
`RecommendationEngine._compute_similarity` (lines 226-245): pad the shorter
vector with zeros, then dot product over the product of the magnitudes,
with 0.0 when that product is zero. -/
noncomputable def compute_similarity_value (v1 v2 : List ℚ) : ℝ :=
  let p1 := v1 ++ List.replicate (v2.length - v1.length) 0
  let p2 := v2 ++ List.replicate (v1.length - v2.length) 0
  let dot : ℚ := ((p1.zip p2).map (fun ab => ab.1 * ab.2)).sum
  let magnitude1 : ℝ := Real.sqrt (((p1.map (fun a => a * a)).sum : ℚ))
  let magnitude2 : ℝ := Real.sqrt (((p2.map (fun b => b * b)).sum : ℚ))
  if magnitude1 * magnitude2 = 0 then 0 else (dot : ℝ) / (magnitude1 * magnitude2)

/-- Joint state of the per-item `_similarity_cache` dicts: `c i j` is the
entry keyed by the string `i:j` in the cache owned by the item of id `i`
(within one owner the key determines the other id, so the pair of ids is a
faithful key). -/
def SimCache : Type := String → String → Option ℝ

/-- A single cache write `animeI._similarity_cache[i:j] = v`. -/
def update_cache (c : SimCache) (i j : String) (v : ℝ) : SimCache :=
  fun a b => if a = i ∧ b = j then some v else c a b

/-- `RecommendationEngine._compute_similarity` (lines 211-251): return the
entry cached by the first item if present; otherwise compute the cosine
similarity of the two feature vectors and store it under both orderings of
the id pair, in the respective owning caches. -/
noncomputable def compute_similarity (anime1 anime2 : Anime) (c : SimCache) :
    ℝ × SimCache :=
  match c anime1.id anime2.id with
  | some v => (v, c)
  | none =>
    let v := compute_similarity_value (get_feature_vector anime1) (get_feature_vector anime2)
    (v, update_cache (update_cache c anime1.id anime2.id v) anime2.id anime1.id v)

/-- Trailer metadata returned by the enrichment bridge
(`_fetch_trailer_sync`). -/
structure TrailerInfo where
  url : Option String
  thumbnail : Option String
  title : Option String
  channel : Option String
deriving DecidableEq

/-- The all-None trailer dict built at the top of `_fetch_anime_trailer`
and in the exception handlers. -/
def empty_trailer_info : TrailerInfo :=
  { url := none, thumbnail := none, title := none, channel := none }

/-- The fields of a YouTube search hit that `_fetch_anime_trailer`
reads from the provider response. -/
structure VideoResult where
  id : String
  title : String
  channel : String
  thumbnail : String
deriving DecidableEq

/-- Demo-mode synthetic trailer data of `_fetch_trailer_sync` (lines
448-455): a deterministic pseudo id from the first ten lowercased
alphanumeric-or-underscore characters of the title. -/
def mock_trailer_data (anime_title : String) : TrailerInfo :=
  let video_id :=
    String.mk ((anime_title.data.map
      (fun c => if c.isAlphanum then c.toLower else '_')).take 10) ++ "_trailer"
  { url := some ("https://www.youtube.com/watch?v=" ++ video_id),
    thumbnail := some ("https://i.ytimg.com/vi/" ++ video_id ++ "/hqdefault.jpg"),
    title := some (anime_title ++ " Official Trailer"),
    channel := some "AnimeTrailers" }

/-- `RecommendationEngine._fetch_anime_trailer` (lines 378-429).  The
`search` parameter models the asynchronous
`youtube_client.search_anime_trailer` call; `Except.error` stands for a
raised exception, caught by the inner handler.  The third component counts
the underlying search invocations.  Only a successful hit is written to
the cache. -/
def fetch_anime_trailer (has_client : Bool)
    (search : String → Except Unit (Option VideoResult))
    (cache : List (String × TrailerInfo)) (anime_title : String) :
    TrailerInfo × List (String × TrailerInfo) × ℕ :=
  match lookupKV cache anime_title with
  | some v => (v, cache, 0)
  | none =>
    if !has_client then (empty_trailer_info, cache, 0)
    else
      match search anime_title with
      | Except.ok (some video) =>
        let info : TrailerInfo :=
          { url := some ("https://www.youtube.com/watch?v=" ++ video.id),
            thumbnail := some video.thumbnail,
            title := some video.title,
            channel := some video.channel }
        (info, insertKV cache anime_title info, 1)
      | Except.ok none => (empty_trailer_info, cache, 1)
      | Except.error _ => (empty_trailer_info, cache, 1)

/-- `RecommendationEngine._fetch_trailer_sync` (lines 431-492): cached
value if present; demo mode or missing client synthesizes, caches and
returns the mock data with no search call; otherwise the asynchronous
lookup is run to completion (the event-loop bridging is modelled as a
direct call, and the coroutine catches its own exceptions, so the outer
handler of lines 485-492 has nothing to catch in this model). -/
def fetch_trailer_sync (demo_mode has_client : Bool)
    (search : String → Except Unit (Option VideoResult))
    (cache : List (String × TrailerInfo)) (anime_title : String) :
    TrailerInfo × List (String × TrailerInfo) × ℕ :=
  match lookupKV cache anime_title with
  | some v => (v, cache, 0)
  | none =>
    if demo_mode || !has_client then
      let mock := mock_trailer_data anime_title
      (mock, insertKV cache anime_title mock, 0)
    else if !has_client then (empty_trailer_info, cache, 0)
    else fetch_anime_trailer has_client search cache anime_title

/-- A fetch function standing for an engine without a working colour
analysis collaborator. -/
def no_fetch : Anime → Option AnimeVisualProfile := fun _ => none

/-- Default `AnimeFeatures()`: every dict empty. -/
def empty_features : AnimeFeatures :=
  { genres := [], themes := [], sentiment := [], emotion_profile := [],
    target_demographic := [] }

/-- Sample catalog item with id `a` and no features. -/
def sample_anime_a : Anime :=
  { id := "a", title := "Alpha", genres := [], themes := [], studios := [],
    features := empty_features, visual_profile := none }

/-- Sample catalog item with id `b` and no features. -/
def sample_anime_b : Anime :=
  { id := "b", title := "Beta", genres := [], themes := [], studios := [],
    features := empty_features, visual_profile := none }

/-- Sample two-item catalog in insertion order. -/
def sample_catalog : List (String × Anime) :=
  [("a", sample_anime_a), ("b", sample_anime_b)]

/-- Fresh preference profile with no signals. -/
def empty_prefs : UserPreferences :=
  { user_id := "u", anime_ratings := [], genre_preferences := [],
    theme_preferences := [], current_mood := Mood.any, favorite_studios := [],
    color_preferences := [] }

/-- Options with `include_watched` set, genre weight 1 and limit 1. -/
def sample_options : RecommendationOptions :=
  { limit := 1, include_watched := true, mood_weight := 0, genre_weight := 1,
    studio_weight := 0, sentiment_weight := 0, color_weight := 0 }

/-- Options with `include_watched` set, genre weight 1 and limit 10. -/
def sample_options_wide : RecommendationOptions :=
  { sample_options with limit := 10 }

/-- Rated catalog item with known sentiment positivity 1.0. -/
def c1_rated : Anime :=
  { id := "r1", title := "Rated", genres := [], themes := [], studios := [],
    features := { empty_features with sentiment := [("positivity", 1)] },
    visual_profile := none }

/-- One-item catalog holding the rated item. -/
def c1_catalog : List (String × Anime) := [("r1", c1_rated)]

/-- Candidate item with sentiment positivity -1.0 (the documented lower
bound). -/
def c1_anime : Anime :=
  { id := "x", title := "Candidate", genres := [], themes := [], studios := [],
    features := { empty_features with sentiment := [("positivity", -1)] },
    visual_profile := none }

/-- Profile rating the item `r1` with the top score 5. -/
def c1_prefs : UserPreferences :=
  { empty_prefs with anime_ratings := [("r1", { score := 5 })] }

/-- Options with sentiment weight 1 and every other weight 0. -/
def c1_options : RecommendationOptions :=
  { limit := 10, include_watched := false, mood_weight := 0, genre_weight := 0,
    studio_weight := 0, sentiment_weight := 1, color_weight := 0 }

/-- Candidate item with sentiment positivity 0.5. -/
def c3_anime : Anime :=
  { id := "c", title := "CandidateC", genres := [], themes := [], studios := [],
    features := { empty_features with sentiment := [("positivity", 0.5)] },
    visual_profile := none }

/-- Profile whose single rating has value 3, below the qualifying
threshold 4. -/
def c3_prefs_low : UserPreferences :=
  { empty_prefs with anime_ratings := [("ghost", { score := 3 })] }

/-- Candidate item with sentiment positivity 1.0. -/
def c3_anime_top : Anime :=
  { id := "d", title := "CandidateD", genres := [], themes := [], studios := [],
    features := { empty_features with sentiment := [("positivity", 1)] },
    visual_profile := none }

/-- Profile with one qualifying rating (value 5 on `r1`) and one
non-qualifying rating (value 3). -/
def c3_prefs_mixed : UserPreferences :=
  { empty_prefs with
    anime_ratings := [("r1", { score := 5 }), ("ghost", { score := 3 })] }

/-- Is the rated item present in the catalog with a known sentiment
(the qualification test of the spec)? -/
def rated_has_sentiment (catalog : List (String × Anime)) (anime_id : String) : Bool :=
  match lookupKV catalog anime_id with
  | some rated => !decide (rated.features.sentiment = [])
  | none => false

/-- Positivity of a rated catalog item, 0 when absent. -/
def rated_positivity (catalog : List (String × Anime)) (anime_id : String) : ℚ :=
  match lookupKV catalog anime_id with
  | some rated => lookupD rated.features.sentiment "positivity" 0
  | none => 0

/-- Catalog item with a single genre feature, so its feature vector is
nonzero. -/
def c4_anime : Anime :=
  { id := "g", title := "Gamma", genres := [], themes := [], studios := [],
    features := { empty_features with genres := [("action", 1)] },
    visual_profile := none }

/-- Profile carrying one colour preference entry. -/
def c10_prefs : UserPreferences :=
  { empty_prefs with color_preferences := [ColorPreferenceEntry.palette "warm" 1] }

/-- Default options of `RecommendationOptions()`. -/
def c10_options : RecommendationOptions :=
  { limit := 10, include_watched := false, mood_weight := 0.5, genre_weight := 0.5,
    studio_weight := 0.2, sentiment_weight := 0.5, color_weight := 0.3 }

/-- The empty similarity cache state: no item has cached anything. -/
def empty_sim_cache : SimCache := fun _ _ => none

/-- The expected result list of the sample one-item ranking used by the
witnesses. -/
def sample_res : List RecommendationResult := [{ anime := sample_anime_a, score := 0 }]

/-- One-item catalog used by the exactly-once witness. -/
def c5w_catalog : List (String × Anime) := [("a", sample_anime_a)]

/- ------------------------------------------------------------------ -/
/- Helper lemmas                                                      -/
/- ------------------------------------------------------------------ -/

theorem lookupKV_insertKV_self {β : Type} (m : List (String × β)) (k : String) (v : β) :
    lookupKV (insertKV m k v) k = some v := by
  induction m with
  | nil => simp [insertKV, lookupKV]
  | cons p rest ih =>
    by_cases h : p.1 = k
    · simp [insertKV, h, lookupKV]
    · simpa [insertKV, h, lookupKV] using ih

theorem color_score_and_update_snd (dm : Bool)
    (fp : Anime → Option AnimeVisualProfile) (anime : Anime) (up : UserPreferences) :
    (color_score_and_update dm fp anime up).2 =
      if up.color_preferences = [] then anime
      else if anime.visual_profile = none then
        { anime with visual_profile := fetch_visual_profile_sync dm fp anime }
      else anime := by
  by_cases h : up.color_preferences = []
  · simp [color_score_and_update, h]
  · by_cases hvp : anime.visual_profile = none
    · rcases hfp : fetch_visual_profile_sync dm fp anime with _ | vp <;>
        simp [color_score_and_update, h, hvp, hfp, apply_ite Prod.snd]
    · obtain ⟨vp, hvp1⟩ := Option.ne_none_iff_exists'.mp hvp
      simp [color_score_and_update, h, hvp1, apply_ite Prod.snd]

theorem score_anime_snd (dm : Bool) (fp : Anime → Option AnimeVisualProfile)
    (catalog : List (String × Anime)) (anime : Anime) (up : UserPreferences)
    (options : RecommendationOptions) :
    (score_anime dm fp catalog anime up options).2 =
      (color_score_and_update dm fp anime up).2 := by
  simp only [score_anime]
  split <;> rfl

theorem sum_map_ite {α : Type} (l : List α) (p : α → Bool) (f g : α → ℚ)
    (hg : ∀ x, g x = if p x then f x else 0) :
    (l.map g).sum = ((l.filter p).map f).sum := by
  induction l with
  | nil => simp
  | cons x xs ih =>
    by_cases hx : p x
    · simp [hg x, hx, ih]
    · simp [hg x, hx, ih]

theorem zip_self_sum (v : List ℚ) :
    ((v.zip v).map (fun ab => ab.1 * ab.2)).sum = (v.map (fun a => a * a)).sum := by
  induction v with
  | nil => simp
  | cons a t ih => simp [ih]

theorem sum_squares_nonneg (v : List ℚ) : 0 ≤ (v.map (fun a => a * a)).sum :=
  List.sum_nonneg (fun x hx => by
    obtain ⟨a, _, rfl⟩ := List.mem_map.mp hx
    exact mul_self_nonneg a)

theorem dot_comm : ∀ (l1 l2 : List ℚ),
    ((l1.zip l2).map (fun ab => ab.1 * ab.2)).sum =
      ((l2.zip l1).map (fun ab => ab.1 * ab.2)).sum
  | [], l2 => by cases l2 <;> simp
  | a :: t1, [] => by simp
  | a :: t1, b :: t2 => by
    simpa [mul_comm] using dot_comm t1 t2

theorem ite_zero_div_comm (x y d : ℝ) :
    (if x * y = 0 then (0:ℝ) else d / (x * y)) =
      (if y * x = 0 then (0:ℝ) else d / (y * x)) := by
  rw [mul_comm]

theorem compute_similarity_value_symm (v1 v2 : List ℚ) :
    compute_similarity_value v1 v2 = compute_similarity_value v2 v1 := by
  simp only [compute_similarity_value]
  rw [dot_comm]
  exact ite_zero_div_comm _ _ _

/- ------------------------------------------------------------------ -/
/- Claim theorems                                                     -/
/- ------------------------------------------------------------------ -/

/-- Claim C1 (code bug): the combined score of `score_anime` can leave
[0.0, 1.0] even with every signal input in its documented range, because
the sentiment comparison `1.0 - |avg - candidate|` is never clamped.  With
one rated item of positivity 1.0, a candidate of positivity -1.0,
sentiment weight 1 and the other weights 0, the returned total is -1.0,
contradicting the documented range. -/
theorem score_anime_total_below_zero :
    (score_anime false no_fetch c1_catalog c1_anime c1_prefs c1_options).1 =
      some (-1) := by
  simp [score_anime, genre_score, studio_score, calculate_mood_relevance,
    sentiment_score, color_score_and_update, c1_catalog, c1_anime, c1_prefs,
    c1_options, c1_rated, empty_prefs, empty_features, lookupKV, lookupD]
  norm_num

/-- Claim C3 counterexample: two sentiment-signal evaluations contradicting
the claim.  First, a profile whose only rating has value 3 (so no
qualifying rated item exists) still receives sentiment signal 0.5 with a
candidate of positivity 0.5, where the claim demands 0.0.  Second, a
profile with one qualifying rating (value 5, rated positivity 1.0) and one
non-qualifying rating receives signal 0.5 with a candidate of positivity
1.0, where the claimed average over qualifying items alone would give
1.0: the code divides by the count of ALL ratings. -/
theorem sentiment_score_counterexample :
    sentiment_score [] c3_prefs_low c3_anime = 1 / 2 ∧
    sentiment_score c1_catalog c3_prefs_mixed c3_anime_top = 1 / 2 := by
  constructor
  · simp [sentiment_score, c3_prefs_low, c3_anime, empty_prefs, empty_features,
      lookupKV, lookupD]
    rw [abs_of_nonneg (by norm_num : (0:ℚ) ≤ 0.5)]
    norm_num
  · simp [sentiment_score, c3_prefs_mixed, c3_anime_top, c1_catalog, c1_rated,
      empty_prefs, empty_features, lookupKV, lookupD]
    rw [abs_of_nonpos (by norm_num : (2⁻¹ - 1 : ℚ) ≤ 0)]
    norm_num

/-- Claim C3 as amended: the sentiment signal is computed only when the
CANDIDATE has a known sentiment and the ratings map is nonempty; it then
equals 1.0 minus the absolute difference between the candidate positivity
and the sum of positivity over qualifying rated items (rating value at
least 4 and a catalog entry with known sentiment) divided by the number of
ALL ratings; otherwise it contributes 0.0. -/
theorem sentiment_score_characterization (catalog : List (String × Anime))
    (up : UserPreferences) (anime : Anime) :
    sentiment_score catalog up anime =
      if anime.features.sentiment = [] ∨ up.anime_ratings = [] then 0
      else
        1 - |(((up.anime_ratings.filter
              (fun p => decide (4 ≤ p.2.score) && rated_has_sentiment catalog p.1)).map
              (fun p => rated_positivity catalog p.1)).sum) /
            (up.anime_ratings.length : ℚ) -
            lookupD anime.features.sentiment "positivity" 0| := by
  by_cases hs : anime.features.sentiment = []
  · simp [sentiment_score, hs]
  · by_cases hr : up.anime_ratings = []
    · simp [sentiment_score, hs, hr]
    · have hsum : (up.anime_ratings.map (fun p =>
          if 4 ≤ p.2.score then
            match lookupKV catalog p.1 with
            | some rated =>
              if rated.features.sentiment = [] then 0
              else lookupD rated.features.sentiment "positivity" 0
            | none => 0
          else 0)).sum =
          ((up.anime_ratings.filter
            (fun p => decide (4 ≤ p.2.score) && rated_has_sentiment catalog p.1)).map
            (fun p => rated_positivity catalog p.1)).sum := by
        apply sum_map_ite
        intro x
        by_cases h4 : 4 ≤ x.2.score
        · rcases hl : lookupKV catalog x.1 with _ | rated
          · simp [h4, hl, rated_has_sentiment, rated_positivity]
          · by_cases hre : rated.features.sentiment = []
            · simp [h4, hl, hre, rated_has_sentiment, rated_positivity, lookupD]
            · simp [h4, hl, hre, rated_has_sentiment, rated_positivity]
        · simp [h4]
      simp only [sentiment_score, if_neg hs, if_neg hr, hsum]
      rw [if_neg (by simp [hs, hr])]

/-- Claim C3 characterization witness: on the mixed-rating profile the
characterization evaluates to the value the code produces. -/
theorem sentiment_score_characterization_witness :
    sentiment_score c1_catalog c3_prefs_mixed c3_anime_top =
      if c3_anime_top.features.sentiment = [] ∨ c3_prefs_mixed.anime_ratings = [] then 0
      else
        1 - |(((c3_prefs_mixed.anime_ratings.filter
              (fun p => decide (4 ≤ p.2.score) && rated_has_sentiment c1_catalog p.1)).map
              (fun p => rated_positivity c1_catalog p.1)).sum) /
            (c3_prefs_mixed.anime_ratings.length : ℚ) -
            lookupD c3_anime_top.features.sentiment "positivity" 0| :=
  sentiment_score_characterization c1_catalog c3_prefs_mixed c3_anime_top

/-- Claim C4 counterexample: the item with an empty feature set has
self-similarity 0.0, not 1.0, because the zero-magnitude guard of
`_compute_similarity` fires before the ratio is formed. -/
theorem compute_similarity_self_empty_counterexample :
    (compute_similarity sample_anime_a sample_anime_a empty_sim_cache).1 ≠ 1 := by
  have h : (compute_similarity sample_anime_a sample_anime_a empty_sim_cache).1 = 0 := by
    simp [compute_similarity, empty_sim_cache, compute_similarity_value,
      get_feature_vector, sub_vector, sorted_keys, sample_anime_a, empty_features,
      List.insertionSort, Real.sqrt_zero]
  rw [h]
  norm_num

/-- Claim C4 as amended: the freshly computed self-similarity of an item
equals 1.0 exactly when the sum of squares of its feature vector is
nonzero; when the feature vector is empty or all zero (in particular for
an empty feature set) it equals 0.0. -/
theorem compute_similarity_self (anime : Anime) (c : SimCache)
    (hmiss : c anime.id anime.id = none) :
    (compute_similarity anime anime c).1 =
      if ((get_feature_vector anime).map (fun a => a * a)).sum = 0 then 0 else 1 := by
  simp only [compute_similarity, hmiss]
  simp only [compute_similarity_value]
  have hp : get_feature_vector anime ++
      List.replicate (List.length (get_feature_vector anime) -
        List.length (get_feature_vector anime)) (0:ℚ) = get_feature_vector anime := by
    simp
  rw [hp, zip_self_sum]
  by_cases h0 : ((get_feature_vector anime).map (fun a => a * a)).sum = 0
  · simp [h0, Real.sqrt_zero]
  · rw [if_neg h0]
    have hpos : (0:ℚ) < ((get_feature_vector anime).map (fun a => a * a)).sum :=
      lt_of_le_of_ne (sum_squares_nonneg _) (Ne.symm h0)
    have hcast : (0:ℝ) ≤ (((get_feature_vector anime).map (fun a => a * a)).sum : ℚ) := by
      exact_mod_cast hpos.le
    have hsq : Real.sqrt ((((get_feature_vector anime).map (fun a => a * a)).sum : ℚ)) *
        Real.sqrt ((((get_feature_vector anime).map (fun a => a * a)).sum : ℚ)) =
        ((((get_feature_vector anime).map (fun a => a * a)).sum : ℚ) : ℝ) :=
      Real.mul_self_sqrt hcast
    have hne : Real.sqrt ((((get_feature_vector anime).map (fun a => a * a)).sum : ℚ)) *
        Real.sqrt ((((get_feature_vector anime).map (fun a => a * a)).sum : ℚ)) ≠ 0 := by
      rw [hsq]
      exact_mod_cast h0
    rw [if_neg hne, hsq, div_self (by exact_mod_cast h0)]

/-- Claim C4 witness: an item with a single unit genre feature has
self-similarity exactly 1.0 on a fresh cache. -/
theorem compute_similarity_self_witness :
    (compute_similarity c4_anime c4_anime empty_sim_cache).1 = 1 := by
  rw [compute_similarity_self c4_anime empty_sim_cache rfl, if_neg]
  simp [get_feature_vector, sub_vector, sorted_keys, c4_anime, empty_features,
    lookupD, lookupKV, List.insertionSort, List.orderedInsert]

/-- Claim C7: the pairwise similarity value is symmetric in the two items,
and one computation on a cache miss stores the result under both orderings
of the id pair, so the reversed call is a cache hit returning the same
value and leaving the cache unchanged. -/
theorem compute_similarity_symm_and_cached (anime1 anime2 : Anime) (c : SimCache)
    (hmiss : c anime1.id anime2.id = none) :
    compute_similarity_value (get_feature_vector anime1) (get_feature_vector anime2) =
      compute_similarity_value (get_feature_vector anime2) (get_feature_vector anime1) ∧
    (compute_similarity anime1 anime2 c).2 anime1.id anime2.id =
      some (compute_similarity anime1 anime2 c).1 ∧
    (compute_similarity anime1 anime2 c).2 anime2.id anime1.id =
      some (compute_similarity anime1 anime2 c).1 ∧
    compute_similarity anime2 anime1 ((compute_similarity anime1 anime2 c).2) =
      ((compute_similarity anime1 anime2 c).1, (compute_similarity anime1 anime2 c).2) := by
  have h1 : (compute_similarity anime1 anime2 c).2 anime1.id anime2.id =
      some (compute_similarity anime1 anime2 c).1 := by
    simp only [compute_similarity, hmiss]
    by_cases hij : anime1.id = anime2.id <;> simp [update_cache, hij]
  have h2 : (compute_similarity anime1 anime2 c).2 anime2.id anime1.id =
      some (compute_similarity anime1 anime2 c).1 := by
    simp only [compute_similarity, hmiss]
    simp [update_cache]
  refine ⟨compute_similarity_value_symm _ _, h1, h2, ?_⟩
  generalize hq : compute_similarity anime1 anime2 c = q at h2 ⊢
  simp only [compute_similarity, h2]

/-- Claim C7 witness: concrete two-item instantiation on the empty cache. -/
theorem compute_similarity_symm_and_cached_witness :
    compute_similarity_value (get_feature_vector sample_anime_a)
        (get_feature_vector sample_anime_b) =
      compute_similarity_value (get_feature_vector sample_anime_b)
        (get_feature_vector sample_anime_a) ∧
    (compute_similarity sample_anime_a sample_anime_b empty_sim_cache).2
        sample_anime_a.id sample_anime_b.id =
      some (compute_similarity sample_anime_a sample_anime_b empty_sim_cache).1 ∧
    (compute_similarity sample_anime_a sample_anime_b empty_sim_cache).2
        sample_anime_b.id sample_anime_a.id =
      some (compute_similarity sample_anime_a sample_anime_b empty_sim_cache).1 ∧
    compute_similarity sample_anime_b sample_anime_a
        ((compute_similarity sample_anime_a sample_anime_b empty_sim_cache).2) =
      ((compute_similarity sample_anime_a sample_anime_b empty_sim_cache).1,
        (compute_similarity sample_anime_a sample_anime_b empty_sim_cache).2) :=
  compute_similarity_symm_and_cached sample_anime_a sample_anime_b empty_sim_cache rfl

/-- Claim C2 (code bug): with all five configured weights equal to 0 the
weighted-average division of `score_anime` is NOT guarded: the Python
float division raises `ZeroDivisionError`, modelled here by a `none`
score, for every catalog, item and profile, instead of returning 0.0. -/
theorem score_anime_zero_weights_raises (dm : Bool)
    (fp : Anime → Option AnimeVisualProfile) (catalog : List (String × Anime))
    (anime : Anime) (up : UserPreferences) (limit : ℕ) (iw : Bool) :
    (score_anime dm fp catalog anime up
      { limit := limit, include_watched := iw, mood_weight := 0, genre_weight := 0,
        studio_weight := 0, sentiment_weight := 0, color_weight := 0 }).1 = none := by
  simp [score_anime]

/-- Claim C8: in demo mode (or without a YouTube client), a first call of
`fetch_trailer_sync` on an uncached title synthesizes the deterministic
mock metadata from the title, performs no search call, and caches it; a
second call with the same title is a cache hit returning identical
metadata, again with no search call. -/
theorem fetch_trailer_sync_demo_deterministic (demo_mode has_client : Bool)
    (search : String → Except Unit (Option VideoResult))
    (cache : List (String × TrailerInfo)) (anime_title : String)
    (hmode : demo_mode = true ∨ has_client = false)
    (hmiss : lookupKV cache anime_title = none) :
    fetch_trailer_sync demo_mode has_client search cache anime_title =
      (mock_trailer_data anime_title,
        insertKV cache anime_title (mock_trailer_data anime_title), 0) ∧
    fetch_trailer_sync demo_mode has_client search
        (insertKV cache anime_title (mock_trailer_data anime_title)) anime_title =
      (mock_trailer_data anime_title,
        insertKV cache anime_title (mock_trailer_data anime_title), 0) := by
  have hcond : (demo_mode || !has_client) = true := by
    rcases hmode with h | h <;> simp [h]
  constructor
  · simp [fetch_trailer_sync, hmiss, hcond]
  · simp [fetch_trailer_sync, lookupKV_insertKV_self]

/-- Claim C8 witness: both demo-mode calls on the fresh title return the
identical synthetic metadata with zero search invocations. -/
theorem fetch_trailer_sync_demo_witness :
    fetch_trailer_sync true false (fun _ => Except.error ()) [] "Cowboy Bebop" =
      (mock_trailer_data "Cowboy Bebop",
        insertKV [] "Cowboy Bebop" (mock_trailer_data "Cowboy Bebop"), 0) ∧
    fetch_trailer_sync true false (fun _ => Except.error ())
        (insertKV [] "Cowboy Bebop" (mock_trailer_data "Cowboy Bebop")) "Cowboy Bebop" =
      (mock_trailer_data "Cowboy Bebop",
        insertKV [] "Cowboy Bebop" (mock_trailer_data "Cowboy Bebop"), 0) :=
  fetch_trailer_sync_demo_deterministic true false _ [] "Cowboy Bebop" (Or.inl rfl) rfl

/-- Claim C9 counterexample: when the underlying search raises, the first
call returns the all-None result but the cache stays EMPTY, and a repeated
call for the same title invokes the underlying lookup again (one search
invocation on the second call as well), contradicting the claimed caching
of the not-found outcome. -/
theorem fetch_trailer_sync_error_uncached_counterexample :
    (fetch_trailer_sync false true (fun _ => Except.error ()) [] "Lain").1 =
      empty_trailer_info ∧
    (fetch_trailer_sync false true (fun _ => Except.error ()) [] "Lain").2.1 = [] ∧
    (fetch_trailer_sync false true (fun _ => Except.error ())
        ((fetch_trailer_sync false true (fun _ => Except.error ()) [] "Lain").2.1)
        "Lain").2.2 = 1 := by
  refine ⟨rfl, rfl, rfl⟩

/-- Claim C9 as amended: any exception of the underlying lookup is caught
and converted into the all-None result, but that outcome is NOT written to
the cache, so each repeated call within the session performs the
underlying lookup again (exactly one search invocation per call). -/
theorem fetch_trailer_sync_error_not_cached
    (search : String → Except Unit (Option VideoResult))
    (cache : List (String × TrailerInfo)) (anime_title : String)
    (hmiss : lookupKV cache anime_title = none)
    (herr : search anime_title = Except.error ()) :
    fetch_trailer_sync false true search cache anime_title =
      (empty_trailer_info, cache, 1) := by
  simp [fetch_trailer_sync, fetch_anime_trailer, hmiss, herr]

/-- Claim C9 witness: concrete failing lookup on an uncached title. -/
theorem fetch_trailer_sync_error_not_cached_witness :
    fetch_trailer_sync false true (fun _ => Except.error ()) [] "Trigun" =
      (empty_trailer_info, [], 1) :=
  fetch_trailer_sync_error_not_cached _ [] "Trigun" rfl rfl

/-- Claim C10: scoring is not read-only on the catalog item.  When the
profile carries a nonempty `color_preferences` attribute and the item has
no visual profile yet, `score_anime` writes the fetched (in demo mode,
the synthesized deterministic) visual profile into the item; when the
profile has no colour preferences the item is returned unchanged. -/
theorem score_anime_mutates_visual_profile (dm : Bool)
    (fp : Anime → Option AnimeVisualProfile) (catalog : List (String × Anime))
    (anime : Anime) (up : UserPreferences) (options : RecommendationOptions) :
    (up.color_preferences ≠ [] → anime.visual_profile = none →
      (score_anime dm fp catalog anime up options).2 =
        { anime with visual_profile := fetch_visual_profile_sync dm fp anime }) ∧
    (up.color_preferences = [] →
      (score_anime dm fp catalog anime up options).2 = anime) ∧
    (dm = true →
      fetch_visual_profile_sync dm fp anime = some (mock_visual_profile anime.title)) := by
  refine ⟨fun h hvp => ?_, fun h => ?_, fun h => ?_⟩
  · rw [score_anime_snd, color_score_and_update_snd, if_neg h, if_pos hvp]
  · rw [score_anime_snd, color_score_and_update_snd, if_pos h]
  · simp [fetch_visual_profile_sync, h]

/-- Claim C10 witness: in demo mode, scoring the profile-with-colour case
writes the synthesized profile of the title hash into the item, and the
no-colour-preferences case leaves the item unchanged. -/
theorem score_anime_mutates_visual_profile_witness :
    (score_anime true no_fetch [] sample_anime_a c10_prefs c10_options).2 =
      { sample_anime_a with
        visual_profile := fetch_visual_profile_sync true no_fetch sample_anime_a } ∧
    (score_anime true no_fetch [] sample_anime_a empty_prefs c10_options).2 =
      sample_anime_a ∧
    fetch_visual_profile_sync true no_fetch sample_anime_a =
      some (mock_visual_profile sample_anime_a.title) :=
  ⟨(score_anime_mutates_visual_profile true no_fetch [] sample_anime_a c10_prefs
      c10_options).1 (List.cons_ne_nil _ _) rfl,
    (score_anime_mutates_visual_profile true no_fetch [] sample_anime_a empty_prefs
      c10_options).2.1 rfl,
    (score_anime_mutates_visual_profile true no_fetch [] sample_anime_a c10_prefs
      c10_options).2.2 rfl⟩

theorem filter_orderedInsert (r : RecommendationResult)
    (l : List RecommendationResult) (s : ℚ) :
    (List.orderedInsert scoreGE r l).filter (fun x => decide (x.score = s)) =
      if r.score = s then r :: l.filter (fun x => decide (x.score = s))
      else l.filter (fun x => decide (x.score = s)) := by
  induction l with
  | nil =>
    by_cases h : r.score = s <;> simp [List.orderedInsert, h]
  | cons b t ih =>
    by_cases hrb : scoreGE r b
    · rw [List.orderedInsert, if_pos hrb]
      by_cases h : r.score = s <;> simp [h, List.filter_cons]
    · rw [List.orderedInsert, if_neg hrb]
      by_cases hb : b.score = s
      · have hrs : ¬ r.score = s := by
          intro hr
          exact hrb (by unfold scoreGE; rw [hr, hb])
        simp [List.filter_cons, hb, ih, hrs]
      · by_cases h : r.score = s <;> simp [List.filter_cons, hb, ih, h]

theorem filter_insertionSort_stable (l : List RecommendationResult) (s : ℚ) :
    (l.insertionSort scoreGE).filter (fun x => decide (x.score = s)) =
      l.filter (fun x => decide (x.score = s)) := by
  induction l with
  | nil => rfl
  | cons x t ih =>
    rw [List.insertionSort, filter_orderedInsert, ih]
    by_cases h : x.score = s <;> simp [h, List.filter_cons]

theorem filter_take_front {α : Type} (l : List α) (n : ℕ) (p : α → Bool) :
    (l.take n).filter p <+: l.filter p :=
  ⟨(l.drop n).filter p, by rw [← List.filter_append, List.take_append_drop]⟩

theorem score_anime_snd_id (dm : Bool) (fp : Anime → Option AnimeVisualProfile)
    (catalog : List (String × Anime)) (anime : Anime) (up : UserPreferences)
    (options : RecommendationOptions) :
    ((score_anime dm fp catalog anime up options).2).id = anime.id := by
  rw [score_anime_snd, color_score_and_update_snd]
  by_cases h : up.color_preferences = []
  · simp [h]
  · by_cases hvp : anime.visual_profile = none <;> simp [h, hvp]

theorem score_loop_map_id (dm : Bool) (fp : Anime → Option AnimeVisualProfile)
    (catv : List (String × Anime)) (up : UserPreferences)
    (options : RecommendationOptions) (watched : List String) :
    ∀ (l : List (String × Anime)) (res : List RecommendationResult),
      score_loop dm fp catv up options watched l = some res →
      res.map (fun r => r.anime.id) =
        (l.filter (fun p => decide (p.1 ∉ watched))).map (fun p => p.2.id) := by
  intro l
  induction l with
  | nil =>
    intro res h
    simp only [score_loop, Option.some.injEq] at h
    subst h
    simp
  | cons p t ih =>
    obtain ⟨k, a⟩ := p
    intro res h
    by_cases hw : k ∈ watched
    · rw [score_loop, if_pos hw] at h
      rw [List.filter_cons]
      simp only [hw, not_true_eq_false, decide_eq_false_iff_not, Bool.false_eq_true,
        if_false]
      simpa using ih res h
    · rw [score_loop, if_neg hw] at h
      rcases hsa : score_anime dm fp catv a up options with ⟨os, a1⟩
      rw [hsa] at h
      cases os with
      | none => simp at h
      | some sc =>
        obtain ⟨tail, htail, hres⟩ := Option.map_eq_some'.mp h
        subst hres
        have hid : a1.id = a.id := by
          have h2 := score_anime_snd_id dm fp catv a up options
          rw [hsa] at h2
          exact h2
        rw [List.filter_cons]
        simp [hw, ih tail htail, hid]

theorem get_recommendations_eq (dm : Bool) (fp : Anime → Option AnimeVisualProfile)
    (catalog : List (String × Anime)) (up : UserPreferences)
    (options : RecommendationOptions) (res : List RecommendationResult)
    (h : get_recommendations dm fp catalog up options = some res) :
    ∃ base, score_loop dm fp catalog up options (watched_ids up options) catalog =
        some base ∧
      res = (base.insertionSort scoreGE).take options.limit := by
  obtain ⟨base, hbase, hres⟩ := Option.map_eq_some'.mp h
  exact ⟨base, hbase, hres.symm⟩

theorem countP_le_one_of_nodup (l : List String) (hnd : l.Nodup) (k : String) :
    l.countP (fun x => decide (x = k)) ≤ 1 := by
  induction l with
  | nil => simp
  | cons a t ih =>
    obtain ⟨hna, hnt⟩ := List.nodup_cons.mp hnd
    rw [List.countP_cons]
    by_cases hak : a = k
    · have hz : t.countP (fun x => decide (x = k)) = 0 :=
        List.countP_eq_zero.mpr (fun b hb => by
          simp only [decide_eq_true_eq]
          intro hbk
          apply hna
          rw [hak, ← hbk]
          exact hb)
      simp [hak, hz]
    · simp [hak, ih hnt]

theorem countP_eq_one_of_nodup_mem (l : List String) (hnd : l.Nodup) (k : String)
    (hk : k ∈ l) : l.countP (fun x => decide (x = k)) = 1 := by
  induction l with
  | nil => simp at hk
  | cons a t ih =>
    obtain ⟨hna, hnt⟩ := List.nodup_cons.mp hnd
    rw [List.countP_cons]
    by_cases hak : a = k
    · have hz : t.countP (fun x => decide (x = k)) = 0 :=
        List.countP_eq_zero.mpr (fun b hb => by
          simp only [decide_eq_true_eq]
          intro hbk
          apply hna
          rw [hak, ← hbk]
          exact hb)
      simp [hak, hz]
    · have hkt : k ∈ t := by
        rcases List.mem_cons.mp hk with h | h
        · exact absurd h.symm hak
        · exact h
      simp [hak, ih hnt hkt]

/-- Claim C6: the returned list is the scored list sorted in descending
score order by a stable sort and truncated to at most `limit` entries:
its length is bounded by `limit`, it is pairwise descending, and for every
score value the results carrying that score form a prefix of the equally
scored results in catalog iteration order, so equal-score entries keep
their catalog insertion order. -/
theorem get_recommendations_sorted_truncated_stable (dm : Bool)
    (fp : Anime → Option AnimeVisualProfile) (catalog : List (String × Anime))
    (up : UserPreferences) (options : RecommendationOptions)
    (res : List RecommendationResult)
    (hres : get_recommendations dm fp catalog up options = some res) :
    res.length ≤ options.limit ∧
    res.Pairwise (fun a b => b.score ≤ a.score) ∧
    (∀ base, score_loop dm fp catalog up options (watched_ids up options) catalog =
        some base →
      ∀ s : ℚ, (res.filter (fun r => decide (r.score = s))) <+:
        (base.filter (fun r => decide (r.score = s)))) := by
  obtain ⟨base, hbase, rfl⟩ := get_recommendations_eq dm fp catalog up options res hres
  refine ⟨?_, ?_, ?_⟩
  · rw [List.length_take]
    exact min_le_left _ _
  · have hs : (base.insertionSort scoreGE).Pairwise scoreGE :=
      List.sorted_insertionSort scoreGE base
    exact hs.sublist (List.take_sublist _ _)
  · intro base2 hbase2 s
    have hb : base2 = base := by
      rw [hbase] at hbase2
      exact (Option.some.inj hbase2).symm
    subst hb
    have h1 := filter_take_front (base2.insertionSort scoreGE) options.limit
      (fun r => decide (r.score = s))
    rwa [filter_insertionSort_stable] at h1

/-- Shared concrete evaluation: ranking the two-item sample catalog with
`include_watched` set and limit 1 returns only the first item, scored 0. -/
theorem sample_ranking_result :
    get_recommendations false no_fetch sample_catalog empty_prefs sample_options =
      some sample_res := by
  simp [get_recommendations, score_loop, watched_ids, score_anime, genre_score,
    studio_score, calculate_mood_relevance, sentiment_score, color_score_and_update,
    sample_catalog, sample_anime_a, sample_anime_b, empty_prefs, empty_features,
    sample_options, sample_res, List.insertionSort, List.orderedInsert, scoreGE,
    lookupD, lookupKV]

/-- Shared concrete evaluation: ranking the one-item catalog with limit 10
returns that item, scored 0. -/
theorem c5w_ranking_result :
    get_recommendations false no_fetch c5w_catalog empty_prefs sample_options_wide =
      some sample_res := by
  simp [get_recommendations, score_loop, watched_ids, score_anime, genre_score,
    studio_score, calculate_mood_relevance, sentiment_score, color_score_and_update,
    c5w_catalog, sample_anime_a, empty_prefs, empty_features, sample_options_wide,
    sample_options, sample_res, List.insertionSort, List.orderedInsert, scoreGE,
    lookupD, lookupKV]

/-- Claim C6 witness: the sample ranking is defined, within the limit and
pairwise descending. -/
theorem get_recommendations_sorted_witness :
    get_recommendations false no_fetch sample_catalog empty_prefs sample_options =
      some sample_res ∧
    sample_res.length ≤ sample_options.limit ∧
    sample_res.Pairwise (fun a b => b.score ≤ a.score) := by
  have hres := sample_ranking_result
  have h := get_recommendations_sorted_truncated_stable false no_fetch sample_catalog
    empty_prefs sample_options sample_res hres
  exact ⟨hres, h.1, h.2.1⟩

/-- Claim C5 counterexample: with `include_watched = true`, two registered
items and `limit = 1`, the returned list holds only the id `a`, so the
registered item `b` does not appear: truncation defeats the claimed
exactly-once property of the returned list. -/
theorem get_recommendations_truncation_counterexample :
    ((get_recommendations false no_fetch sample_catalog empty_prefs
        sample_options).getD []).map (fun r => r.anime.id) = ["a"] ∧
    sample_catalog.map Prod.fst = ["a", "b"] := by
  constructor
  · simp [get_recommendations, score_loop, watched_ids, score_anime, genre_score,
      studio_score, calculate_mood_relevance, sentiment_score, color_score_and_update,
      sample_catalog, sample_anime_a, sample_anime_b, empty_prefs, empty_features,
      sample_options, List.insertionSort, List.orderedInsert, scoreGE,
      lookupD, lookupKV]
  · rfl

/-- Claim C5 as amended: with `include_watched = false` no returned entry
carries a rated item id; with `include_watched = true` every id occurs at
most once in the returned list, and every registered id occurs exactly
once PROVIDED the catalog size is at most `limit` (truncation to `limit`
otherwise drops trailing items).  The catalog hypotheses state that
registration keys items by their own id (`add_anime`) and keys are unique
(dict catalog). -/
theorem get_recommendations_watched (dm : Bool)
    (fp : Anime → Option AnimeVisualProfile) (catalog : List (String × Anime))
    (up : UserPreferences) (options : RecommendationOptions)
    (res : List RecommendationResult)
    (hwf : ∀ p ∈ catalog, (p.2 : Anime).id = p.1)
    (hnd : (catalog.map Prod.fst).Nodup)
    (hres : get_recommendations dm fp catalog up options = some res) :
    (options.include_watched = false →
      ∀ r ∈ res, r.anime.id ∉ up.anime_ratings.map Prod.fst) ∧
    (options.include_watched = true →
      (∀ k : String, res.countP (fun r => decide (r.anime.id = k)) ≤ 1) ∧
      (catalog.length ≤ options.limit →
        ∀ k ∈ catalog.map Prod.fst,
          res.countP (fun r => decide (r.anime.id = k)) = 1)) := by
  obtain ⟨base, hbase, rfl⟩ := get_recommendations_eq dm fp catalog up options res hres
  have hids := score_loop_map_id dm fp catalog up options (watched_ids up options)
    catalog base hbase
  constructor
  · intro hiw r hr hmem
    have hrb : r ∈ base := by
      have h1 : r ∈ base.insertionSort scoreGE := (List.take_sublist _ _).subset hr
      exact (List.mem_insertionSort scoreGE).mp h1
    have h2 : r.anime.id ∈
        (catalog.filter (fun p => decide (p.1 ∉ watched_ids up options))).map
          (fun p => p.2.id) := by
      rw [← hids]
      exact List.mem_map_of_mem _ hrb
    obtain ⟨p, hpmem, hpid⟩ := List.mem_map.mp h2
    have hpcat : p ∈ catalog := (List.mem_filter.mp hpmem).1
    have hpw : p.1 ∉ watched_ids up options :=
      of_decide_eq_true (List.mem_filter.mp hpmem).2
    rw [watched_ids, hiw] at hpw
    simp only [Bool.false_eq_true, if_false] at hpw
    exact hpw (by rwa [← hpid, hwf p hpcat] at hmem)
  · intro hiw
    have hwatched : watched_ids up options = [] := by simp [watched_ids, hiw]
    have hfilter : catalog.filter (fun p => decide (p.1 ∉ watched_ids up options)) =
        catalog := by
      rw [hwatched]
      simp
    rw [hfilter] at hids
    have hkeys : catalog.map (fun p => p.2.id) = catalog.map Prod.fst :=
      List.map_congr_left (fun p hp => hwf p hp)
    have hcount : ∀ k, base.countP (fun r => decide (r.anime.id = k)) =
        (catalog.map Prod.fst).countP (fun x => decide (x = k)) := by
      intro k
      have hcm := List.countP_map (fun x => decide (x = k))
        (fun r : RecommendationResult => r.anime.id) base
      rw [hids, hkeys] at hcm
      exact hcm.symm
    constructor
    · intro k
      calc ((base.insertionSort scoreGE).take options.limit).countP
            (fun r => decide (r.anime.id = k)) ≤
          (base.insertionSort scoreGE).countP (fun r => decide (r.anime.id = k)) :=
            (List.take_sublist _ _).countP_le _
        _ = base.countP (fun r => decide (r.anime.id = k)) :=
            (List.perm_insertionSort scoreGE base).countP_eq _
        _ = (catalog.map Prod.fst).countP (fun x => decide (x = k)) := hcount k
        _ ≤ 1 := countP_le_one_of_nodup _ hnd k
    · intro hlen k hk
      have hblen : base.length = catalog.length := by
        have h3 := congrArg List.length hids
        simpa using h3
      have htake : (base.insertionSort scoreGE).take options.limit =
          base.insertionSort scoreGE :=
        List.take_of_length_le (by
          rw [List.length_insertionSort, hblen]
          exact hlen)
      rw [htake]
      calc (base.insertionSort scoreGE).countP (fun r => decide (r.anime.id = k)) =
          base.countP (fun r => decide (r.anime.id = k)) :=
            (List.perm_insertionSort scoreGE base).countP_eq _
        _ = (catalog.map Prod.fst).countP (fun x => decide (x = k)) := hcount k
        _ = 1 := countP_eq_one_of_nodup_mem _ hnd k hk

/-- Claim C5 witness: the one-item ranking with `include_watched` is
defined and lists the registered id exactly once. -/
theorem get_recommendations_watched_witness :
    get_recommendations false no_fetch c5w_catalog empty_prefs sample_options_wide =
      some sample_res ∧
    sample_res.countP (fun r => decide (r.anime.id = "a")) = 1 := by
  have hres := c5w_ranking_result
  have h := get_recommendations_watched false no_fetch c5w_catalog empty_prefs
    sample_options_wide sample_res
    (by
      intro p hp
      rcases List.mem_singleton.mp hp with rfl
      rfl)
    (by simp [c5w_catalog])
    hres
  refine ⟨hres, ?_⟩
  exact ((h.2 rfl).2 (by norm_num [c5w_catalog, sample_options_wide, sample_options]))
    "a" (by simp [c5w_catalog])

end AniSage
